import Mathlib

/-!
Shallow embedding of the mechanical-analysis pipeline of the repository
(analisis/geometria.py, viento.py, cargas_tramo.py, fuerzas_nodo.py,
retenidas.py, equilibrio_poste.py, cimentacion.py, perfil.py,
decision_soporte.py), together with theorems settling behavioural claims
about it.

Conventions used throughout:
* Python floats are embedded as real numbers; exact decimal catalog data
  is embedded as rationals.
* A pandas DataFrame argument that may be None is an Option (List row);
  the rows are typed structures carrying the columns the function uses.
* A Python function that can raise is embedded as Except String _, with
  the error message of the source.
-/

set_option maxHeartbeats 1000000

namespace Analisis

/-- geometria.py: a point is a pair of planar UTM coordinates (floats). -/
abbrev Point : Type := ℝ × ℝ

/-- geometria.py, dist_utm: Euclidean distance, np.hypot (dx, dy). -/
noncomputable def dist_utm (p1 p2 : Point) : ℝ :=
  Real.sqrt ((p2.1 - p1.1) ^ 2 + (p2.2 - p1.2) ^ 2)

/-- Python float modulo with a positive modulus (the result takes the sign
of the divisor): a % b = a - b * floor (a / b). Embeds numpy degrees % 360. -/
noncomputable def rmod (a b : ℝ) : ℝ := a - b * ((⌊a / b⌋ : ℤ) : ℝ)

/-- numpy arctan2 (y, x) on real numbers, with value in (-pi, pi]. -/
noncomputable def atan2 (y x : ℝ) : ℝ :=
  if 0 < x then Real.arctan (y / x)
  else if x < 0 then
    if 0 ≤ y then Real.arctan (y / x) + Real.pi
    else Real.arctan (y / x) - Real.pi
  else if 0 < y then Real.pi / 2
  else if y < 0 then -(Real.pi / 2)
  else 0

/-- math.radians / np.deg2rad. -/
noncomputable def radians (deg : ℝ) : ℝ := deg * Real.pi / 180

/-- np.degrees. -/
noncomputable def degrees (rad : ℝ) : ℝ := rad * 180 / Real.pi

/-- geometria.py, azimut_deg: degrees (arctan2 (dy, dx)) % 360. -/
noncomputable def azimut_deg (p1 p2 : Point) : ℝ :=
  rmod (degrees (atan2 (p2.2 - p1.2) (p2.1 - p1.1))) 360

/-- geometria.py, deflexion_deg: absolute azimuth difference at p2 between
the legs p2 -> p1 and p2 -> p3, folded to at most 180. -/
noncomputable def deflexion_deg (p1 p2 p3 : Point) : ℝ :=
  if 180 < |azimut_deg p2 p3 - azimut_deg p2 p1| then
    360 - |azimut_deg p2 p3 - azimut_deg p2 p1|
  else |azimut_deg p2 p3 - azimut_deg p2 p1|

/-- geometria.py, clasificar_por_angulo. The thresholds are exact decimals,
embedded as rationals; the recommended guy count is a Python int. -/
def clasificar_por_angulo (ang : ℚ) : String × ℤ :=
  if 90 < ang then ("Giro", 2)
  else if 60 < ang then ("Giro", 2)
  else if 30 < ang then ("Doble remate", 3)
  else if 5 < ang then ("Ángulo", 1)
  else ("Paso", 0)

/-! Arithmetic facts about rmod, the real-number embedding of Python's
float modulo with positive divisor. -/

theorem rmod_eq_mul_fract (a : ℝ) {b : ℝ} (hb : b ≠ 0) :
    rmod a b = b * Int.fract (a / b) := by
  unfold rmod
  rw [Int.fract, mul_sub, mul_div_cancel₀ a hb]

theorem rmod_nonneg (a : ℝ) {b : ℝ} (hb : 0 < b) : 0 ≤ rmod a b := by
  rw [rmod_eq_mul_fract a hb.ne']
  exact mul_nonneg hb.le (Int.fract_nonneg _)

theorem rmod_lt (a : ℝ) {b : ℝ} (hb : 0 < b) : rmod a b < b := by
  rw [rmod_eq_mul_fract a hb.ne']
  calc b * Int.fract (a / b) < b * 1 :=
        (mul_lt_mul_left hb).mpr (Int.fract_lt_one _)
    _ = b := mul_one b

theorem rmod_add_int_mul (a : ℝ) {b : ℝ} (hb : b ≠ 0) (k : ℤ) :
    rmod (a + b * (k : ℝ)) b = rmod a b := by
  unfold rmod
  have h : (a + b * (k : ℝ)) / b = a / b + (k : ℝ) := by
    rw [add_div, mul_div_cancel_left₀ _ hb]
  rw [h, Int.floor_add_int]
  push_cast
  ring

theorem rmod_sub_rmod (a c : ℝ) {b : ℝ} (hb : b ≠ 0) :
    rmod (rmod a b - rmod c b) b = rmod (a - c) b := by
  have h : rmod a b - rmod c b
      = (a - c) + b * ((⌊c / b⌋ - ⌊a / b⌋ : ℤ) : ℝ) := by
    unfold rmod
    push_cast
    ring
  rw [h, rmod_add_int_mul _ hb]

theorem rmod_180_360 : rmod (180 : ℝ) 360 = 180 := by
  unfold rmod
  have h : ⌊(180 : ℝ) / 360⌋ = 0 := by
    apply Int.floor_eq_iff.mpr
    norm_num
  rw [h]
  norm_num

theorem rmod_neg180_360 : rmod (-180 : ℝ) 360 = 180 := by
  unfold rmod
  have h : ⌊(-180 : ℝ) / 360⌋ = -1 := by
    apply Int.floor_eq_iff.mpr
    norm_num
  rw [h]
  norm_num

/-! Case characterisations of atan2 and its behaviour under negating both
arguments, the geometric core of the azimuth round-trip property. -/

theorem atan2_of_pos {x : ℝ} (y : ℝ) (hx : 0 < x) :
    atan2 y x = Real.arctan (y / x) := by
  unfold atan2
  rw [if_pos hx]

theorem atan2_of_neg_nonneg {x y : ℝ} (hx : x < 0) (hy : 0 ≤ y) :
    atan2 y x = Real.arctan (y / x) + Real.pi := by
  unfold atan2
  rw [if_neg (by linarith), if_pos hx, if_pos hy]

theorem atan2_of_neg_neg {x y : ℝ} (hx : x < 0) (hy : y < 0) :
    atan2 y x = Real.arctan (y / x) - Real.pi := by
  unfold atan2
  rw [if_neg (by linarith), if_pos hx, if_neg (by linarith)]

theorem atan2_zero_of_pos {y : ℝ} (hy : 0 < y) : atan2 y 0 = Real.pi / 2 := by
  unfold atan2
  rw [if_neg (by linarith), if_neg (by linarith), if_pos hy]

theorem atan2_zero_of_neg {y : ℝ} (hy : y < 0) : atan2 y 0 = -(Real.pi / 2) := by
  unfold atan2
  rw [if_neg (by linarith), if_neg (by linarith), if_neg (by linarith), if_pos hy]

theorem atan2_neg_both (y x : ℝ) (h : ¬(x = 0 ∧ y = 0)) :
    atan2 (-y) (-x) = atan2 y x + Real.pi ∨
    atan2 (-y) (-x) = atan2 y x - Real.pi := by
  rcases lt_trichotomy x 0 with hx | hx | hx
  · rcases le_or_lt 0 y with hy | hy
    · right
      rw [atan2_of_pos (-y) (by linarith), atan2_of_neg_nonneg hx hy,
        neg_div_neg_eq]
      ring
    · left
      rw [atan2_of_pos (-y) (by linarith), atan2_of_neg_neg hx hy,
        neg_div_neg_eq]
      ring
  · subst hx
    rcases lt_trichotomy y 0 with hy | hy | hy
    · left
      rw [show (-(0 : ℝ)) = 0 by ring] at *
      rw [atan2_zero_of_pos (by linarith : 0 < -y), atan2_zero_of_neg hy]
      ring
    · exact absurd ⟨rfl, hy⟩ h
    · right
      rw [show (-(0 : ℝ)) = 0 by ring] at *
      rw [atan2_zero_of_neg (by linarith : -y < 0), atan2_zero_of_pos hy]
      ring
  · rcases lt_trichotomy y 0 with hy | hy | hy
    · left
      rw [atan2_of_neg_nonneg (by linarith : -x < 0) (by linarith : 0 ≤ -y),
        atan2_of_pos y hx, neg_div_neg_eq]
    · subst hy
      left
      rw [atan2_of_neg_nonneg (by linarith : -x < 0) (by norm_num : (0 : ℝ) ≤ -0),
        atan2_of_pos 0 hx, neg_div_neg_eq]
    · right
      rw [atan2_of_neg_neg (by linarith : -x < 0) (by linarith : -y < 0),
        atan2_of_pos y hx, neg_div_neg_eq]

theorem azimut_mod180_core (dx dy : ℝ) (h : ¬(dx = 0 ∧ dy = 0)) :
    rmod (rmod (degrees (atan2 dy dx)) 360
      - rmod (degrees (atan2 (-dy) (-dx))) 360) 360 = 180 := by
  have h360 : (360 : ℝ) ≠ 0 := by norm_num
  rcases atan2_neg_both dy dx h with hc | hc
  · rw [hc, rmod_sub_rmod _ _ h360]
    have hd : degrees (atan2 dy dx) - degrees (atan2 dy dx + Real.pi) = -180 := by
      unfold degrees
      field_simp [Real.pi_ne_zero]
      ring
    rw [hd, rmod_neg180_360]
  · rw [hc, rmod_sub_rmod _ _ h360]
    have hd : degrees (atan2 dy dx) - degrees (atan2 dy dx - Real.pi) = 180 := by
      unfold degrees
      field_simp [Real.pi_ne_zero]
      ring
    rw [hd, rmod_180_360]

theorem azimut_deg_bounds (p q : Point) : 0 ≤ azimut_deg p q ∧ azimut_deg p q < 360 :=
  ⟨rmod_nonneg _ (by norm_num), rmod_lt _ (by norm_num)⟩

/-- C4: for any two distinct points, both azimuths lie in [0, 360), they
differ by exactly 180 degrees modulo 360, and the distance is symmetric. -/
theorem azimut_ida_y_vuelta_dist_simetrica (p1 p2 : Point) (h : p1 ≠ p2) :
    (0 ≤ azimut_deg p1 p2 ∧ azimut_deg p1 p2 < 360) ∧
    (0 ≤ azimut_deg p2 p1 ∧ azimut_deg p2 p1 < 360) ∧
    rmod (azimut_deg p1 p2 - azimut_deg p2 p1) 360 = 180 ∧
    dist_utm p1 p2 = dist_utm p2 p1 := by
  refine ⟨azimut_deg_bounds p1 p2, azimut_deg_bounds p2 p1, ?_, ?_⟩
  · have hne : ¬(p2.1 - p1.1 = 0 ∧ p2.2 - p1.2 = 0) := by
      intro hc
      apply h
      have h1 : p1.1 = p2.1 := by linarith [hc.1]
      have h2 : p1.2 = p2.2 := by linarith [hc.2]
      exact Prod.ext h1 h2
    have e1 : p1.2 - p2.2 = -(p2.2 - p1.2) := by ring
    have e2 : p1.1 - p2.1 = -(p2.1 - p1.1) := by ring
    unfold azimut_deg
    rw [e1, e2]
    exact azimut_mod180_core _ _ hne
  · unfold dist_utm
    congr 1
    ring

/-- Witness for C4 at the concrete pair p1 = (0, 0), p2 = (1, 0). -/
theorem azimut_ida_y_vuelta_testigo :
    (0 ≤ azimut_deg ((0 : ℝ), (0 : ℝ)) ((1 : ℝ), (0 : ℝ)) ∧
      azimut_deg ((0 : ℝ), (0 : ℝ)) ((1 : ℝ), (0 : ℝ)) < 360) ∧
    (0 ≤ azimut_deg ((1 : ℝ), (0 : ℝ)) ((0 : ℝ), (0 : ℝ)) ∧
      azimut_deg ((1 : ℝ), (0 : ℝ)) ((0 : ℝ), (0 : ℝ)) < 360) ∧
    rmod (azimut_deg ((0 : ℝ), (0 : ℝ)) ((1 : ℝ), (0 : ℝ))
      - azimut_deg ((1 : ℝ), (0 : ℝ)) ((0 : ℝ), (0 : ℝ))) 360 = 180 ∧
    dist_utm ((0 : ℝ), (0 : ℝ)) ((1 : ℝ), (0 : ℝ))
      = dist_utm ((1 : ℝ), (0 : ℝ)) ((0 : ℝ), (0 : ℝ)) :=
  azimut_ida_y_vuelta_dist_simetrica _ _
    (fun hc => one_ne_zero (congrArg Prod.fst hc).symm)

/-- C5: the deflection computed at any point triple lies in [0, 180]. -/
theorem deflexion_en_rango (p1 p2 p3 : Point) :
    0 ≤ deflexion_deg p1 p2 p3 ∧ deflexion_deg p1 p2 p3 ≤ 180 := by
  obtain ⟨ha0, ha1⟩ := azimut_deg_bounds p2 p1
  obtain ⟨hb0, hb1⟩ := azimut_deg_bounds p2 p3
  have habs : |azimut_deg p2 p3 - azimut_deg p2 p1| < 360 := by
    rw [abs_lt]
    constructor <;> linarith
  have habs0 : 0 ≤ |azimut_deg p2 p3 - azimut_deg p2 p1| := abs_nonneg _
  unfold deflexion_deg
  split_ifs with hgt
  · constructor <;> linarith
  · constructor <;> linarith

/-- C2 counterexample: the recommended guy count is not non-decreasing
across the 60 degree boundary: 40 degrees gives 3 guys, 70 degrees only 2. -/
theorem clasificar_no_monotona_contraejemplo :
    (40 : ℚ) < 70 ∧
    clasificar_por_angulo 40 = ("Doble remate", 3) ∧
    clasificar_por_angulo 70 = ("Giro", 2) ∧
    ¬(clasificar_por_angulo 40).2 ≤ (clasificar_por_angulo 70).2 := by
  refine ⟨by norm_num, ?_, ?_, ?_⟩ <;> decide

/-- C2 amended: classification is total and exclusive (each angle maps to
exactly one pair); the guy count is non-decreasing for angles up to the 60
degree boundary, but above 60 degrees it is the constant 2, strictly below
the 3 recommended on (30, 60]. -/
theorem clasificar_total_y_monotona_hasta_60 (a b : ℚ) :
    (∃! p : String × ℤ, clasificar_por_angulo a = p) ∧
    (0 ≤ a → a ≤ b → b ≤ 60 →
      (clasificar_por_angulo a).2 ≤ (clasificar_por_angulo b).2) ∧
    (60 < a → (clasificar_por_angulo a).2 = 2) := by
  refine ⟨⟨clasificar_por_angulo a, rfl, fun y hy => hy.symm⟩, ?_, ?_⟩
  · intro h0 hab hb
    unfold clasificar_por_angulo
    split_ifs <;> first | (exfalso; linarith) | norm_num
  · intro ha
    unfold clasificar_por_angulo
    split_ifs <;> first | (exfalso; linarith) | rfl

/-- Witness for C2 amended at the concrete angles 10, 40 and 70. -/
theorem clasificar_testigo :
    (∃! p : String × ℤ, clasificar_por_angulo 10 = p) ∧
    (clasificar_por_angulo 10).2 ≤ (clasificar_por_angulo 40).2 ∧
    (clasificar_por_angulo 70).2 = 2 :=
  ⟨(clasificar_total_y_monotona_hasta_60 10 40).1,
    (clasificar_total_y_monotona_hasta_60 10 40).2.1
      (by norm_num) (by norm_num) (by norm_num),
    (clasificar_total_y_monotona_hasta_60 70 70).2.2 (by norm_num)⟩

/-! viento.py, catalogos.py and cargas_tramo.py: wind and span loads. -/

/-- viento.py, viento_kN_m: aerodynamic drag per metre of conductor,
0.5 * rho * Cd * D * v^2 in N/m converted to kN/m; zero whenever the speed
or the diameter is nonpositive (wind is optional, not an error). -/
noncomputable def viento_kN_m (velocidad_ms diametro_m Cd rho : ℝ) : ℝ :=
  if velocidad_ms ≤ 0 ∨ diametro_m ≤ 0 then 0
  else 0.5 * rho * Cd * diametro_m * velocidad_ms ^ 2 / 1000

/-- Modelled from the spec: the body of proyectar_viento in
src/analisis/viento.py is cut off mid-line in the provided sources; the
spec and the function's own surviving docstring give the projection
w_eff = w * abs (sin theta), theta = radians (az_viento - az_tramo). -/
noncomputable def proyectar_viento (w_kN_m azimut_tramo_deg azimut_viento_deg : ℝ) : ℝ :=
  w_kN_m * |Real.sin (radians (azimut_viento_deg - azimut_tramo_deg))|

/-- catalogos.py, CONDUCTORES_ACSR: one conductor catalog entry; the
decimal table values are embedded exactly as rationals. -/
structure Conductor where
  peso_kg_m : ℚ
  TR_kgf : ℚ
  diametro_m : ℚ

/-- catalogos.py, CONDUCTORES_ACSR: the dict lookup, as an if-chain over
the nine catalog keys. -/
def CONDUCTORES_ACSR (calibre : String) : Option Conductor :=
  if calibre = "2 ACSR" then some ⟨1357 / 10000, 1292, 801 / 100000⟩
  else if calibre = "1/0 ACSR" then some ⟨2162 / 10000, 1986, 1011 / 100000⟩
  else if calibre = "2/0 ACSR" then some ⟨2720 / 10000, 2398, 1134 / 100000⟩
  else if calibre = "3/0 ACSR" then some ⟨3443 / 10000, 2996, 1275 / 100000⟩
  else if calibre = "4/0 ACSR" then some ⟨4331 / 10000, 3776, 1431 / 100000⟩
  else if calibre = "266.8 MCM" then some ⟨5111 / 10000, 4330, 1607 / 100000⟩
  else if calibre = "336.4 MCM" then some ⟨6899 / 10000, 6423, 1829 / 100000⟩
  else if calibre = "477 MCM" then some ⟨9758 / 10000, 8825, 2177 / 100000⟩
  else if calibre = "795 MCM" then some ⟨16260 / 10000, 14283, 2811 / 100000⟩
  else none

/-- Modelled from the spec: peso_lineal_kN_m is imported from
analisis.mecanica by cargas_tramo.py and engine_mecanico.py but its body is
absent from the provided sources; the spec gives weight-per-length (kN/m) =
catalog weight (kg/m) x 9.81 / 1000. -/
def peso_lineal_kN_m (c : Conductor) : ℚ := c.peso_kg_m * (981 / 100) / 1000

theorem peso_lineal_nonneg (s : String) (c : Conductor)
    (h : CONDUCTORES_ACSR s = some c) : 0 ≤ peso_lineal_kN_m c := by
  unfold CONDUCTORES_ACSR at h
  split_ifs at h <;> (cases h <;> norm_num [peso_lineal_kN_m])

/-- Row of the span table consumed by cargas_tramo.py (columns Tramo,
Azimut, Distancia). -/
structure TramoRow where
  tramo : String
  azimut : ℝ
  distancia_m : ℝ

/-- Row produced by calcular_cargas_por_tramo. -/
structure CargaRow where
  tramo : String
  w_peso : ℝ
  w_viento : ℝ
  w_viento_eff : ℝ
  w_resultante : ℝ
  W_resultante_tramo : ℝ

/-- cargas_tramo.py, calcular_cargas_por_tramo. An empty or missing span
table silently yields an empty table; an unknown conductor key raises (the
Python dict lookup raises KeyError); a negative wind speed raises. The
Python temporaries w_peso, w_viento, w_eff and w_res are inlined. -/
noncomputable def calcular_cargas_por_tramo
    (df_tramos : Option (List TramoRow)) (calibre : String) (n_fases : ℕ)
    (v_viento_ms azimut_viento_deg diametro_conductor_m Cd rho : ℝ) :
    Except String (List CargaRow) :=
  match df_tramos with
  | none => .ok []
  | some rows =>
    if rows.isEmpty then .ok []
    else
      match CONDUCTORES_ACSR calibre with
      | none => .error ("KeyError: " ++ calibre)
      | some c =>
        if v_viento_ms < 0 then .error ("v_viento_ms no puede ser negativo.")
        else
          .ok (rows.map fun t =>
            ⟨t.tramo,
              ((peso_lineal_kN_m c : ℚ) : ℝ) * (n_fases : ℝ),
              viento_kN_m v_viento_ms diametro_conductor_m Cd rho,
              proyectar_viento (viento_kN_m v_viento_ms diametro_conductor_m Cd rho)
                t.azimut azimut_viento_deg,
              Real.sqrt ((((peso_lineal_kN_m c : ℚ) : ℝ) * (n_fases : ℝ)) ^ 2
                + (proyectar_viento (viento_kN_m v_viento_ms diametro_conductor_m Cd rho)
                    t.azimut azimut_viento_deg) ^ 2),
              Real.sqrt ((((peso_lineal_kN_m c : ℚ) : ℝ) * (n_fases : ℝ)) ^ 2
                + (proyectar_viento (viento_kN_m v_viento_ms diametro_conductor_m Cd rho)
                    t.azimut azimut_viento_deg) ^ 2) * t.distancia_m⟩)

/-- C6: with nonpositive wind speed or nonpositive diameter the base wind
load per metre is 0 without error, and at wind speed 0 the span-load stage
succeeds on every span table, with projected wind 0 on every span
regardless of span or wind azimuth and resultant per-length load exactly
equal to the weight load. -/
theorem viento_cero_resultante_igual_peso
    (rows : List TramoRow) (calibre : String) (c : Conductor) (n_fases : ℕ)
    (azimut_viento_deg diametro_conductor_m Cd rho : ℝ)
    (hc : CONDUCTORES_ACSR calibre = some c) :
    (∀ v d Cd2 rho2 : ℝ, v ≤ 0 ∨ d ≤ 0 → viento_kN_m v d Cd2 rho2 = 0) ∧
    calcular_cargas_por_tramo (some rows) calibre n_fases 0
        azimut_viento_deg diametro_conductor_m Cd rho =
      .ok (rows.map fun t =>
        ⟨t.tramo, ((peso_lineal_kN_m c : ℚ) : ℝ) * (n_fases : ℝ), 0, 0,
          ((peso_lineal_kN_m c : ℚ) : ℝ) * (n_fases : ℝ),
          ((peso_lineal_kN_m c : ℚ) : ℝ) * (n_fases : ℝ) * t.distancia_m⟩) := by
  have hguard : ∀ v d Cd2 rho2 : ℝ, v ≤ 0 ∨ d ≤ 0 → viento_kN_m v d Cd2 rho2 = 0 := by
    intro v d Cd2 rho2 hvd
    unfold viento_kN_m
    rw [if_pos hvd]
  refine ⟨hguard, ?_⟩
  have hwp : 0 ≤ ((peso_lineal_kN_m c : ℚ) : ℝ) * (n_fases : ℝ) :=
    mul_nonneg (by exact_mod_cast peso_lineal_nonneg calibre c hc)
      (Nat.cast_nonneg _)
  have hv : viento_kN_m 0 diametro_conductor_m Cd rho = 0 :=
    hguard 0 diametro_conductor_m Cd rho (Or.inl le_rfl)
  have hp : ∀ a b : ℝ, proyectar_viento 0 a b = 0 := by
    intro a b
    unfold proyectar_viento
    exact zero_mul _
  have hs : Real.sqrt ((((peso_lineal_kN_m c : ℚ) : ℝ) * (n_fases : ℝ)) ^ 2
      + (0 : ℝ) ^ 2) = ((peso_lineal_kN_m c : ℚ) : ℝ) * (n_fases : ℝ) := by
    rw [show (((peso_lineal_kN_m c : ℚ) : ℝ) * (n_fases : ℝ)) ^ 2 + (0 : ℝ) ^ 2
        = (((peso_lineal_kN_m c : ℚ) : ℝ) * (n_fases : ℝ)) ^ 2 by ring]
    exact Real.sqrt_sq hwp
  cases rows with
  | nil => simp [calcular_cargas_por_tramo, hc]
  | cons t0 rest =>
    simp only [calcular_cargas_por_tramo, hc]
    rw [if_neg (by simp : ¬((t0 :: rest).isEmpty = true)),
      if_neg (by norm_num : ¬(0 : ℝ) < 0)]
    congr 1
    apply List.map_congr_left
    intro t _
    rw [hv, hp, hs]

/-- Witness for C6 at a concrete one-span table with the 2 ACSR conductor,
three phases and wind speed 0. -/
theorem viento_cero_testigo :
    viento_kN_m 0 1 (6 / 5) (49 / 40) = 0 ∧
    calcular_cargas_por_tramo (some [⟨"P1 a P2", 90, 100⟩]) ("2 ACSR") 3 0 45 1
        (6 / 5) (49 / 40) =
      .ok [⟨"P1 a P2", ((peso_lineal_kN_m ⟨1357 / 10000, 1292, 801 / 100000⟩ : ℚ) : ℝ) * ((3 : ℕ) : ℝ),
        0, 0,
        ((peso_lineal_kN_m ⟨1357 / 10000, 1292, 801 / 100000⟩ : ℚ) : ℝ) * ((3 : ℕ) : ℝ),
        ((peso_lineal_kN_m ⟨1357 / 10000, 1292, 801 / 100000⟩ : ℚ) : ℝ) * ((3 : ℕ) : ℝ) * 100⟩] := by
  have h := viento_cero_resultante_igual_peso [⟨"P1 a P2", 90, 100⟩] "2 ACSR"
    ⟨1357 / 10000, 1292, 801 / 100000⟩ 3 45 1 (6 / 5) (49 / 40) rfl
  exact ⟨h.1 0 1 (6 / 5) (49 / 40) (Or.inl le_rfl), h.2⟩

/-! Shared helper: row-by-row evaluation that stops at the first raising
row, the embedding of a Python for-loop whose body may raise. -/

def exceptMap {α β : Type} (f : α → Except String β) : List α → Except String (List β)
  | [] => .ok []
  | a :: as =>
    match f a with
    | .error e => .error e
    | .ok b =>
      match exceptMap f as with
      | .error e => .error e
      | .ok bs => .ok (b :: bs)

theorem exceptMap_ok_of {α β : Type} (f : α → Except String β) (g : α → β)
    (hfg : ∀ a, f a = .ok (g a)) (l : List α) : exceptMap f l = .ok (l.map g) := by
  induction l with
  | nil => rfl
  | cons a as ih =>
    unfold exceptMap
    rw [hfg a, ih]
    rfl

theorem exceptMap_error_head {α β : Type} (f : α → Except String β) (a : α)
    (as : List α) (e : String) (ha : f a = .error e) :
    exceptMap f (a :: as) = .error e := by
  unfold exceptMap
  rw [ha]

/-! retenidas.py: guy-wire demand. -/

/-- unidades.py, lbf_to_kN: lbf / 224.809. -/
def lbf_to_kN (lbf : ℚ) : ℚ := lbf / (224809 / 1000)

/-- catalogos.py, CAP_RETENIDA_ULT_LBF: ultimate guy-cable strength (lbf). -/
def CAP_RETENIDA_ULT_LBF (cable : String) : Option ℚ :=
  if cable = "1/4\" EHS" then some 7000
  else if cable = "5/16\" EHS" then some 12000
  else if cable = "3/8\" EHS" then some 17000
  else none

/-- retenidas.py, ParamsRetenida. -/
structure ParamsRetenida where
  cable_retenida : String
  FS_retenida : ℝ
  ang_retenida_deg : ℝ

/-- retenidas.py, _cos_safe: rejects a guy angle whose cosine is at most
1e-9 (the exact float guard of the source), otherwise returns the cosine. -/
noncomputable def cos_safe (phi_rad : ℝ) : Except String ℝ :=
  if Real.cos phi_rad ≤ 1 / 10 ^ 9 then
    .error ("Ángulo de retenida inválido (cos(phi) <= 0).")
  else .ok (Real.cos phi_rad)

/-- retenidas.py, tension_retenida_kN: T = H / cos phi, phi from degrees. -/
noncomputable def tension_retenida_kN (H_kN ang_retenida_deg : ℝ) : Except String ℝ :=
  match cos_safe (radians ang_retenida_deg) with
  | .error e => .error e
  | .ok c => .ok (H_kN / c)

/-- retenidas.py, componente_vertical_retenida_kN: V = T sin phi. -/
noncomputable def componente_vertical_retenida_kN (T_kN ang_retenida_deg : ℝ) : ℝ :=
  T_kN * Real.sin (radians ang_retenida_deg)

/-- retenidas.py, componente_horizontal_retenida_kN: H = T cos phi. -/
noncomputable def componente_horizontal_retenida_kN (T_kN ang_retenida_deg : ℝ) : ℝ :=
  T_kN * Real.cos (radians ang_retenida_deg)

/-- Modelled from the spec: capacidad_retenida_admisible_kN is imported
from analisis.mecanica by retenidas.py but its body is absent from the
provided sources; the spec gives admissible capacity = catalog ultimate
guy-cable strength (lbf, converted to kN) / safety factor. -/
noncomputable def capacidad_retenida_admisible_kN (cable_ret : String) (FS_ret : ℝ) :
    Except String ℝ :=
  match CAP_RETENIDA_ULT_LBF cable_ret with
  | none => .error ("Cable de retenida desconocido: " ++ cable_ret)
  | some lbf => .ok (((lbf_to_kN lbf : ℚ) : ℝ) / FS_ret)

/-- retenidas.py, capacidad_admisible_retenida_kN (wrapper over params). -/
noncomputable def capacidad_admisible_retenida_kN (params : ParamsRetenida) :
    Except String ℝ :=
  capacidad_retenida_admisible_kN params.cable_retenida params.FS_retenida

/-- Python round (x, n), embedded as rounding x * 10^n to the nearest
integer, ties half-up; no claim depends on the tie behaviour. -/
noncomputable def round_dec (n : ℕ) (x : ℝ) : ℝ := ((round (x * 10 ^ n) : ℤ) : ℝ) / 10 ^ n

/-- Row of the per-node master table consumed by calcular_retenidas, as
assembled by engine._armar_df_nodos: point label, horizontal demand H (kN)
and the boolean column Retenidas_aplican. -/
structure NodoRow where
  punto : String
  H : ℝ
  aplica : Bool

/-- Row produced by calcular_retenidas (its ordered output columns). -/
structure RetRow where
  punto : String
  H_sin_retenida : ℝ
  T_retenida : ℝ
  H_aporte_ret : ℝ
  V_retenida : ℝ
  H_poste_con_ret : ℝ
  T_admisible_retenida : ℝ
  utilizacion_pct : ℝ
  cumple_retenida : String
  ang_retenida_deg : ℝ
  FS_retenida : ℝ
  cable_retenida : String

/-- retenidas.py, calcular_retenidas, on the engine's calling convention
(aplicar_si_col = Retenidas_aplican read as a boolean). A missing or empty
table silently returns an empty table before any other work; where the guy
applies and H > 0 the tension computation may raise through _cos_safe. -/
noncomputable def calcular_retenidas (df : Option (List NodoRow))
    (params : ParamsRetenida) : Except String (List RetRow) :=
  match df with
  | none => .ok []
  | some rows =>
    if rows.isEmpty then .ok []
    else
      match capacidad_admisible_retenida_kN params with
      | .error e => .error e
      | .ok T_adm =>
        exceptMap (fun (r : NodoRow) =>
          if r.aplica = true ∧ 0 < r.H then
            match tension_retenida_kN r.H params.ang_retenida_deg with
            | .error e => .error e
            | .ok T =>
              .ok ⟨r.punto, r.H,
                round_dec 4 T,
                round_dec 4 (componente_horizontal_retenida_kN T params.ang_retenida_deg),
                round_dec 4 (componente_vertical_retenida_kN T params.ang_retenida_deg),
                round_dec 4 (max (r.H - componente_horizontal_retenida_kN T
                  params.ang_retenida_deg) 0),
                round_dec 4 T_adm,
                round_dec 1 (if 0 < T_adm then 100 * (T / T_adm) else 0),
                if T ≤ T_adm then ("SI") else ("NO"),
                params.ang_retenida_deg, params.FS_retenida, params.cable_retenida⟩
          else
            .ok ⟨r.punto, r.H, round_dec 4 0, round_dec 4 0, round_dec 4 0,
              round_dec 4 r.H, round_dec 4 T_adm, round_dec 1 0, "-",
              params.ang_retenida_deg, params.FS_retenida, params.cable_retenida⟩) rows

/-- C7 counterexample: at guy angle 90 - 1e-8 degrees the cosine is
strictly positive and yet tension_retenida_kN raises, because the source
guards cos phi <= 1e-9, not cos phi <= 0. -/
theorem tension_retenida_contraejemplo :
    0 < Real.cos (radians (90 - 1 / 10 ^ 8)) ∧
    tension_retenida_kN 1 (90 - 1 / 10 ^ 8)
      = .error ("Ángulo de retenida inválido (cos(phi) <= 0).") := by
  have hrad : radians (90 - 1 / 10 ^ 8) = Real.pi / 2 - Real.pi / (180 * 10 ^ 8) := by
    unfold radians
    ring
  have hcos : Real.cos (radians (90 - 1 / 10 ^ 8))
      = Real.sin (Real.pi / (180 * 10 ^ 8)) := by
    rw [hrad, Real.cos_pi_div_two_sub]
  have ht0 : (0 : ℝ) < Real.pi / (180 * 10 ^ 8) :=
    div_pos Real.pi_pos (by norm_num)
  have htpi : Real.pi / (180 * 10 ^ 8) < Real.pi :=
    div_lt_self Real.pi_pos (by norm_num)
  have hpos : 0 < Real.sin (Real.pi / (180 * 10 ^ 8)) :=
    Real.sin_pos_of_pos_of_lt_pi ht0 htpi
  have hle : Real.sin (Real.pi / (180 * 10 ^ 8)) ≤ 1 / 10 ^ 9 := by
    have h1 : Real.sin (Real.pi / (180 * 10 ^ 8)) ≤ Real.pi / (180 * 10 ^ 8) :=
      Real.sin_le ht0.le
    have h2 : Real.pi / (180 * 10 ^ 8) ≤ 4 / (180 * 10 ^ 8) :=
      (div_le_div_right (by norm_num)).mpr Real.pi_le_four
    have h3 : (4 : ℝ) / (180 * 10 ^ 8) ≤ 1 / 10 ^ 9 := by norm_num
    linarith
  refine ⟨by rw [hcos]; exact hpos, ?_⟩
  have hcond : Real.cos (radians (90 - 1 / 10 ^ 8)) ≤ 1 / 10 ^ 9 := by
    rw [hcos]; exact hle
  unfold tension_retenida_kN cos_safe
  rw [if_pos hcond]

/-- C7 amended: tension_retenida_kN raises exactly when cos (phi) is at
most 1e-9 - in particular whenever cos (phi) <= 0, i.e. phi >= 90 degrees,
it never returns a value - and returns T = H / cos (phi) whenever
cos (phi) > 1e-9. -/
theorem tension_retenida_amended (H ang : ℝ) :
    (Real.cos (radians ang) ≤ 1 / 10 ^ 9 →
      tension_retenida_kN H ang
        = .error ("Ángulo de retenida inválido (cos(phi) <= 0).")) ∧
    (1 / 10 ^ 9 < Real.cos (radians ang) →
      tension_retenida_kN H ang = .ok (H / Real.cos (radians ang))) := by
  constructor
  · intro hcond
    unfold tension_retenida_kN cos_safe
    rw [if_pos hcond]
  · intro hcond
    unfold tension_retenida_kN cos_safe
    rw [if_neg (not_le.mpr hcond)]

/-- Witness for C7 amended at angles 180 (cosine -1: raises) and 0
(cosine 1: returns H / cos). -/
theorem tension_retenida_amended_testigo :
    tension_retenida_kN 2 180
      = .error ("Ángulo de retenida inválido (cos(phi) <= 0).") ∧
    tension_retenida_kN 2 0 = .ok (2 / Real.cos (radians 0)) :=
  ⟨(tension_retenida_amended 2 180).1 (by
      have h : radians 180 = Real.pi := by unfold radians; ring
      rw [h, Real.cos_pi]
      norm_num),
    (tension_retenida_amended 2 0).2 (by
      have h : radians 0 = 0 := by unfold radians; ring
      rw [h, Real.cos_zero]
      norm_num)⟩

/-! equilibrio_poste.py: pole-guy equilibrium. -/

/-- equilibrio_poste.py, componente_horizontal_retenida_kN (re-derived in
that module; renamed here to keep Lean names unique). -/
noncomputable def componente_horizontal_eq_kN (T_ret_kN ang_retenida_deg : ℝ) : ℝ :=
  T_ret_kN * Real.cos (radians ang_retenida_deg)

/-- equilibrio_poste.py, fuerza_residual_poste_kN: the residual pole force,
clamped at zero. -/
noncomputable def fuerza_residual_poste_kN (H_nodo_kN H_ret_kN : ℝ) : ℝ :=
  max (H_nodo_kN - H_ret_kN) 0

/-- equilibrio_poste.py, momento_poste_kNm. -/
noncomputable def momento_poste_kNm (H_poste_kN h_amarre_m : ℝ) : ℝ :=
  H_poste_kN * h_amarre_m

/-- Row consumed by equilibrar_poste_retenida on the engine's call
(columns H_sin_retenida, h_amarre, T_retenida, Ángulo retenida). -/
structure EqRow where
  punto : String
  H_nodo : ℝ
  h_amarre : ℝ
  T_ret : ℝ
  ang_ret : ℝ

/-- Row produced by equilibrar_poste_retenida. -/
structure EqResRow where
  punto : String
  H_nodo : ℝ
  h_amarre : ℝ
  T_ret : ℝ
  ang_ret : ℝ
  H_retenida : ℝ
  H_poste : ℝ
  M_poste_real : ℝ

/-- equilibrio_poste.py, equilibrar_poste_retenida, on the engine's call
(col_flag_retenida is None, so tiene_retenida is always true; has_ret_cols
embeds whether the optional tension and angle columns are present in the
frame). A missing or empty table silently yields an empty table. -/
noncomputable def equilibrar_poste_retenida (df : Option (List EqRow))
    (has_ret_cols : Bool) : Except String (List EqResRow) :=
  match df with
  | none => .ok []
  | some rows =>
    if rows.isEmpty then .ok []
    else
      .ok (rows.map fun r =>
        ⟨r.punto, r.H_nodo, r.h_amarre, r.T_ret, r.ang_ret,
          if has_ret_cols then componente_horizontal_eq_kN r.T_ret r.ang_ret else 0,
          fuerza_residual_poste_kN r.H_nodo
            (if has_ret_cols then componente_horizontal_eq_kN r.T_ret r.ang_ret else 0),
          momento_poste_kNm
            (fuerza_residual_poste_kN r.H_nodo
              (if has_ret_cols then componente_horizontal_eq_kN r.T_ret r.ang_ret else 0))
            r.h_amarre⟩)

/-- C8: the residual pole force equals max (H - H_ret, 0), is never
negative whatever the guy contribution, and every row produced by the
equilibrium stage carries a nonnegative H_poste. -/
theorem fuerza_residual_no_negativa (H H_ret : ℝ) (df : Option (List EqRow))
    (b : Bool) (out : List EqResRow)
    (hout : equilibrar_poste_retenida df b = .ok out) :
    fuerza_residual_poste_kN H H_ret = max (H - H_ret) 0 ∧
    0 ≤ fuerza_residual_poste_kN H H_ret ∧
    ∀ r ∈ out, 0 ≤ r.H_poste := by
  refine ⟨rfl, le_max_right _ _, ?_⟩
  intro r hr
  cases df with
  | none =>
    simp only [equilibrar_poste_retenida] at hout
    cases hout
    cases hr
  | some rows =>
    simp only [equilibrar_poste_retenida] at hout
    split at hout
    · cases hout
      cases hr
    · cases hout
      obtain ⟨x, _, rfl⟩ := List.mem_map.mp hr
      exact le_max_right _ _

/-- Witness for C8 on a concrete one-row equilibrium table. -/
theorem fuerza_residual_testigo :
    fuerza_residual_poste_kN 5 3 = max (5 - 3) 0 ∧
    0 ≤ fuerza_residual_poste_kN 5 3 ∧
    ∀ r ∈ [(⟨"P1", 5, 10, 0, 45, 0, fuerza_residual_poste_kN 5 0,
        momento_poste_kNm (fuerza_residual_poste_kN 5 0) 10⟩ : EqResRow)],
      0 ≤ r.H_poste :=
  fuerza_residual_no_negativa 5 3 (some [⟨"P1", 5, 10, 0, 45⟩]) false _ rfl

/-! cimentacion.py: foundation check. The pipeline's forces and heights
are decimal numbers; this stage is pure rational arithmetic and is
embedded over the rationals. -/

/-- cimentacion.py, cortante_base_kN. -/
def cortante_base_kN (H_poste_kN : ℚ) : ℚ := H_poste_kN

/-- cimentacion.py, momento_base_kNm. -/
def momento_base_kNm (H_poste_kN h_amarre_m : ℚ) : ℚ := H_poste_kN * h_amarre_m

/-- cimentacion.py, reaccion_suelo_equivalente_kN: R = M / d, raising on a
nonpositive embedment depth. -/
def reaccion_suelo_equivalente_kN (M_base_kNm profundidad_empotramiento_m : ℚ) :
    Except String ℚ :=
  if profundidad_empotramiento_m ≤ 0 then
    .error ("La profundidad de empotramiento debe ser > 0.")
  else .ok (M_base_kNm / profundidad_empotramiento_m)

/-- Row consumed by evaluar_cimentacion (columns H_poste, h_amarre). -/
structure CimRow where
  punto : String
  H_poste : ℚ
  h_amarre : ℚ

/-- Row produced by evaluar_cimentacion. -/
structure CimResRow where
  punto : String
  H_poste : ℚ
  h_amarre : ℚ
  V_base : ℚ
  M_base : ℚ
  R_suelo_eq : ℚ
  capacidad_suelo : ℚ
  profundidad : ℚ
  cumple_cimentacion : String

/-- cimentacion.py, evaluar_cimentacion. A missing or empty table silently
yields an empty table; otherwise each row computes shear, moment and the
equivalent soil reaction (raising if the embedment depth is nonpositive)
and passes exactly when the reaction is at most the admissible capacity. -/
def evaluar_cimentacion (df : Option (List CimRow))
    (profundidad_empotramiento_m capacidad_suelo_kN : ℚ) :
    Except String (List CimResRow) :=
  match df with
  | none => .ok []
  | some rows =>
    if rows.isEmpty then .ok []
    else
      exceptMap (fun (r : CimRow) =>
        match reaccion_suelo_equivalente_kN (momento_base_kNm r.H_poste r.h_amarre)
            profundidad_empotramiento_m with
        | .error e => .error e
        | .ok R =>
          .ok ⟨r.punto, r.H_poste, r.h_amarre, cortante_base_kN r.H_poste,
            momento_base_kNm r.H_poste r.h_amarre, R, capacidad_suelo_kN,
            profundidad_empotramiento_m,
            if R ≤ capacidad_suelo_kN then ("SI") else ("NO")⟩) rows

/-- C9: the foundation check rejects any nonpositive embedment depth (the
reaction function always, and the stage on any nonempty table), and for a
positive depth computes R = M / d per point and passes exactly when R is
at most the admissible soil capacity. -/
theorem cimentacion_rechaza_y_verifica (M d prof cap : ℚ) (rows : List CimRow) :
    (d ≤ 0 → reaccion_suelo_equivalente_kN M d
      = .error ("La profundidad de empotramiento debe ser > 0.")) ∧
    (0 < d → reaccion_suelo_equivalente_kN M d = .ok (M / d)) ∧
    (prof ≤ 0 → rows ≠ [] → evaluar_cimentacion (some rows) prof cap
      = .error ("La profundidad de empotramiento debe ser > 0.")) ∧
    (0 < prof → evaluar_cimentacion (some rows) prof cap
      = .ok (rows.map fun r =>
          ⟨r.punto, r.H_poste, r.h_amarre, r.H_poste, r.H_poste * r.h_amarre,
            r.H_poste * r.h_amarre / prof, cap, prof,
            if r.H_poste * r.h_amarre / prof ≤ cap then ("SI") else ("NO")⟩)) := by
  refine ⟨?_, ?_, ?_, ?_⟩
  · intro h
    unfold reaccion_suelo_equivalente_kN
    rw [if_pos h]
  · intro h
    unfold reaccion_suelo_equivalente_kN
    rw [if_neg (not_le.mpr h)]
  · intro h hne
    cases rows with
    | nil => exact absurd rfl hne
    | cons r rest =>
      have hre : reaccion_suelo_equivalente_kN (momento_base_kNm r.H_poste r.h_amarre)
          prof = .error ("La profundidad de empotramiento debe ser > 0.") := by
        unfold reaccion_suelo_equivalente_kN
        rw [if_pos h]
      simp only [evaluar_cimentacion]
      rw [if_neg (by simp : ¬((r :: rest).isEmpty = true))]
      rw [exceptMap_error_head _ _ _ _ (by rw [hre])]
  · intro h
    cases rows with
    | nil => rfl
    | cons r rest =>
      simp only [evaluar_cimentacion]
      rw [if_neg (by simp : ¬((r :: rest).isEmpty = true))]
      apply exceptMap_ok_of
      intro a
      have hre : reaccion_suelo_equivalente_kN (momento_base_kNm a.H_poste a.h_amarre)
          prof = .ok (momento_base_kNm a.H_poste a.h_amarre / prof) := by
        unfold reaccion_suelo_equivalente_kN
        rw [if_neg (not_le.mpr h)]
      rw [hre]
      rfl

/-- Witness for C9 at a concrete row (60 kN at 10 m, depth 2 m, 50 kN
admissible) and a concrete nonpositive depth. -/
theorem cimentacion_testigo :
    reaccion_suelo_equivalente_kN 600 0
      = .error ("La profundidad de empotramiento debe ser > 0.") ∧
    reaccion_suelo_equivalente_kN 600 2 = .ok (600 / 2) ∧
    evaluar_cimentacion (some [⟨"P1", 60, 10⟩]) 0 50
      = .error ("La profundidad de empotramiento debe ser > 0.") ∧
    evaluar_cimentacion (some [⟨"P1", 60, 10⟩]) 2 50
      = .ok ([(⟨"P1", 60, 10⟩ : CimRow)].map fun r =>
          ⟨r.punto, r.H_poste, r.h_amarre, r.H_poste, r.H_poste * r.h_amarre,
            r.H_poste * r.h_amarre / 2, 50, 2,
            if r.H_poste * r.h_amarre / 2 ≤ 50 then ("SI") else ("NO")⟩) :=
  ⟨(cimentacion_rechaza_y_verifica 600 0 2 50 []).1 (le_refl 0),
    (cimentacion_rechaza_y_verifica 600 2 2 50 []).2.1 (by norm_num),
    (cimentacion_rechaza_y_verifica 0 1 0 50 [⟨"P1", 60, 10⟩]).2.2.1 (le_refl 0)
      (List.cons_ne_nil _ _),
    (cimentacion_rechaza_y_verifica 0 1 2 50 [⟨"P1", 60, 10⟩]).2.2.2 (by norm_num)⟩

/-! decision_soporte.py: the final structural decision. -/

/-- Character-level versions of Python str.upper / str.strip (strip here
removes spaces, the only whitespace the pipeline's cells carry), used so
the embedding of _si_no evaluates by kernel reduction. -/
def upperAscii (s : String) : String := ⟨s.data.map Char.toUpper⟩

def trimSpaces (s : String) : String :=
  ⟨((s.data.dropWhile (fun c => c = ' ')).reverse.dropWhile (fun c => c = ' ')).reverse⟩

/-- decision_soporte.py, _si_no: strip + upper, then membership in
SI / S / TRUE / 1. -/
def si_no (v : String) : String :=
  if upperAscii (trimSpaces v) = "SI" ∨ upperAscii (trimSpaces v) = "S"
      ∨ upperAscii (trimSpaces v) = "TRUE" ∨ upperAscii (trimSpaces v) = "1"
  then ("SI") else ("NO")

/-- decision_soporte.py, decidir_soporte, the per-row decision block
(lines 158-180): its only inputs are the required guy count, the
guy-space cell and the pole-capacity verdict of that row; the function
receives no foundation result at all. Returns (Solución, Motivo prefix). -/
def decidir_fila (ret : ℤ) (espacio_celda : String) (cumple_poste : String) :
    String × String :=
  if 0 < ret then
    if si_no espacio_celda = "SI" then
      ("RETENIDA", "Estructura requiere retenida")
    else ("AUTOSOPORTADO", "Estructura requiere retenida pero no hay espacio")
  else
    if cumple_poste = "SI" then ("POSTE SOLO", "Paso / sin retenida")
    else ("AUTOSOPORTADO", "No cumple poste solo")

/-- C1: the decision block returns RETENIDA at any point that requires a
guy and has guy space, whatever the pole-capacity verdict; it has no
foundation input. At the concrete failing point (H_poste = 60 kN,
h_amarre = 10 m, depth 2 m, 50 kN admissible) the foundation check fails
(R = 300 kN, Cumple = NO) and the decision is still RETENIDA, where the
spec requires AUTOSOPORTADO. -/
theorem decidir_ignora_cimentacion :
    (decidir_fila 1 ("SI") ("SI")).1 = "RETENIDA" ∧
    (decidir_fila 1 ("SI") ("NO")).1 = "RETENIDA" ∧
    evaluar_cimentacion (some [⟨"P2", 60, 10⟩]) 2 50
      = .ok [⟨"P2", 60, 10, 60, 600, 300, 50, 2, "NO"⟩] := by
  refine ⟨by decide, by decide, ?_⟩
  simp only [evaluar_cimentacion, exceptMap, reaccion_suelo_equivalente_kN,
    momento_base_kNm, cortante_base_kN]
  norm_num

/-! fuerzas_nodo.py: nodal forces (validation and accumulation). -/

/-- fuerzas_nodo.py, _split_tramo helper: split at the first occurrence of
a separator, keeping any further occurrences in the right part, like
Python str.split (sep, 1). -/
def split_once (s sep : String) : Option (String × String) :=
  match s.splitOn sep with
  | a :: b :: rest => some (a, String.intercalate sep (b :: rest))
  | _ => none

/-- fuerzas_nodo.py, _split_tramo: try the arrow separators in order, then
the blank fallback (hyphens and angle brackets replaced by spaces and the
words taken), else raise. -/
def split_tramo (s0 : String) : Except String (String × String) :=
  let s := s0.trim
  match split_once s ("→") with
  | some ab => .ok (ab.1.trim, ab.2.trim)
  | none =>
    match split_once s ("->") with
    | some ab => .ok (ab.1.trim, ab.2.trim)
    | none =>
      match split_once s ("—>") with
      | some ab => .ok (ab.1.trim, ab.2.trim)
      | none =>
        match split_once s ("=>") with
        | some ab => .ok (ab.1.trim, ab.2.trim)
        | none =>
          match (((s.replace ("-") (" ")).replace (">") (" ")).splitOn (" ")).filter
              (fun w => w ≠ "") with
          | p0 :: p1 :: _ => .ok (p0.trim, p1.trim)
          | _ => .error ("No pude interpretar Tramo=" ++ s)

/-- Row of the loaded-span table consumed by calcular_fuerzas_en_nodos:
Tramo, Distancia and the configured w column (w_viento_eff). -/
structure FTramoRow where
  tramo : String
  distancia_m : ℝ
  w_eff : ℝ

/-- Row of the geometry summary table (the columns the pipeline reads). -/
structure ResumenRow where
  punto : String
  poste : String
  espacio_retenida : String
  retenidas : ℤ

/-- Nodal-force output row: Punto, Fx, Fy, H. -/
structure FuerzaRow where
  punto : String
  Fx : ℝ
  Fy : ℝ
  H : ℝ

/-- fuerzas_nodo.py, _acumular_contribuciones, pointwise: add a force
vector to one point's accumulated contribution (the contrib dict). -/
noncomputable def addContrib (f : String → ℝ × ℝ) (p : String) (v : ℝ × ℝ) :
    String → ℝ × ℝ :=
  fun q => if q = p then ((f q).1 + v.1, (f q).2 + v.2) else f q

/-- fuerzas_nodo.py, calcular_fuerzas_en_nodos: entry validation raising
on an empty or missing table, then the 50/50 split of each span force
F = w_eff * L along the wind unit vector and the per-point vector sum. -/
noncomputable def calcular_fuerzas_en_nodos (df_tramos : Option (List FTramoRow))
    (df_resumen : Option (List ResumenRow)) (azimut_viento_deg : ℝ) :
    Except String (List FuerzaRow) :=
  match df_tramos with
  | none => .error ("df_tramos vacío o None")
  | some tr =>
    if tr.isEmpty then .error ("df_tramos vacío o None")
    else
      match df_resumen with
      | none => .error ("df_resumen vacío o None")
      | some res =>
        if res.isEmpty then .error ("df_resumen vacío o None")
        else
          match exceptMap (fun (t : FTramoRow) =>
              (split_tramo t.tramo).map
                (fun ab => (ab.1, ab.2, t.w_eff * t.distancia_m))) tr with
          | .error e => .error e
          | .ok ext =>
            let ux := Real.cos (radians azimut_viento_deg)
            let uy := Real.sin (radians azimut_viento_deg)
            let contrib := ext.foldl
              (fun (f : String → ℝ × ℝ) abF =>
                addContrib
                  (addContrib f abF.1 (0.5 * abF.2.2 * ux, 0.5 * abF.2.2 * uy))
                  abF.2.1 (0.5 * abF.2.2 * ux, 0.5 * abF.2.2 * uy))
              (fun _ => ((0 : ℝ), (0 : ℝ)))
            .ok (res.map fun r =>
              ⟨r.punto, (contrib r.punto).1, (contrib r.punto).2,
                Real.sqrt ((contrib r.punto).1 ^ 2 + (contrib r.punto).2 ^ 2)⟩)

/-- decision_soporte.py, decidir_soporte, entry validation (lines 62-67):
raises on an empty or missing df_resumen or df_fuerzas_nodo before any
other work. Only the validation head is embedded here; the decision block
past it is embedded separately as decidir_fila, and the capacity lookup in
between references names (POSTES, the normative tables) that
decision_soporte.py never imports. -/
def decidir_soporte_entrada (df_resumen : Option (List ResumenRow))
    (df_fuerzas_nodo : Option (List FuerzaRow)) : Except String Unit :=
  match df_resumen with
  | none => .error ("df_resumen vacío")
  | some rs =>
    if rs.isEmpty then .error ("df_resumen vacío")
    else
      match df_fuerzas_nodo with
      | none => .error ("df_fuerzas_nodo vacío")
      | some fs =>
        if fs.isEmpty then .error ("df_fuerzas_nodo vacío")
        else .ok ()

/-- momento_poste.py, calcular_momento_poste, entry validation (lines
41-46): raises on an empty or missing nodal-force table before any other
work (the moment computation past the validation is not needed by the
claims). -/
def calcular_momento_poste_entrada (df_fuerzas_nodo : Option (List FuerzaRow)) :
    Except String Unit :=
  match df_fuerzas_nodo with
  | none => .error ("df_fuerzas_nodo vacío o None")
  | some fs =>
    if fs.isEmpty then .error ("df_fuerzas_nodo vacío o None")
    else .ok ()

/-- geometria.py, calcular_tramos, entry validation (lines 88-89): raises
when fewer than two points are supplied, so in particular on an empty
point list. -/
def calcular_tramos_entrada (puntos : List Point) : Except String Unit :=
  if puntos.length < 2 then
    .error ("Se requieren al menos 2 puntos para calcular tramos.")
  else .ok ()

/-- C3 counterexample: the guy-demand, foundation and equilibrium stage
functions do not raise on an empty or missing input table - each silently
returns an empty table - unlike the nodal-force stage. -/
theorem etapas_vacias_sin_error_contraejemplo :
    calcular_retenidas none ⟨"1/4\" EHS", 2, 45⟩ = .ok [] ∧
    calcular_retenidas (some []) ⟨"1/4\" EHS", 2, 45⟩ = .ok [] ∧
    evaluar_cimentacion none 2 50 = .ok [] ∧
    evaluar_cimentacion (some []) 2 50 = .ok [] ∧
    equilibrar_poste_retenida none true = .ok [] ∧
    equilibrar_poste_retenida (some []) true = .ok [] :=
  ⟨rfl, rfl, rfl, rfl, rfl, rfl⟩

/-- C3 amended: the span-geometry, nodal-force, pole-moment and decision
stage functions raise a validation error on empty or None input, but the
guy-wire demand, pole/guy equilibrium, foundation and span-load stage
functions do not: each silently returns an empty table on empty or None
input. -/
theorem validacion_entrada_por_etapa
    (p : ParamsRetenida) (d cap : ℚ) (b : Bool)
    (res : Option (List ResumenRow)) (fs : Option (List FuerzaRow))
    (az : ℝ) (calibre : String) (n : ℕ) (v azv dia Cd rho : ℝ) :
    calcular_retenidas none p = .ok [] ∧
    calcular_retenidas (some []) p = .ok [] ∧
    evaluar_cimentacion none d cap = .ok [] ∧
    evaluar_cimentacion (some []) d cap = .ok [] ∧
    equilibrar_poste_retenida none b = .ok [] ∧
    equilibrar_poste_retenida (some []) b = .ok [] ∧
    calcular_cargas_por_tramo none calibre n v azv dia Cd rho = .ok [] ∧
    calcular_cargas_por_tramo (some []) calibre n v azv dia Cd rho = .ok [] ∧
    calcular_fuerzas_en_nodos none res az = .error ("df_tramos vacío o None") ∧
    calcular_fuerzas_en_nodos (some []) res az = .error ("df_tramos vacío o None") ∧
    decidir_soporte_entrada none fs = .error ("df_resumen vacío") ∧
    decidir_soporte_entrada (some []) fs = .error ("df_resumen vacío") ∧
    calcular_momento_poste_entrada none = .error ("df_fuerzas_nodo vacío o None") ∧
    calcular_momento_poste_entrada (some [])
      = .error ("df_fuerzas_nodo vacío o None") ∧
    calcular_tramos_entrada []
      = .error ("Se requieren al menos 2 puntos para calcular tramos.") :=
  ⟨rfl, rfl, rfl, rfl, rfl, rfl, rfl, rfl, rfl, rfl, rfl, rfl, rfl, rfl, rfl⟩

/-! perfil.py: sag and support-tension formulas. -/

/-- perfil.py, sag_parabolica_m: f = w L^2 / (8 H); guards only L and H. -/
noncomputable def sag_parabolica_m (L wv_kN_m H_kN : ℝ) : ℝ :=
  if L ≤ 0 ∨ H_kN ≤ 0 then 0 else wv_kN_m * L * L / (8 * H_kN)

/-- perfil.py, sag_catenaria_m: f = (H/w) (cosh (w Lh / 2H) - 1). -/
noncomputable def sag_catenaria_m (Lh wv_kN_m H_kN : ℝ) : ℝ :=
  if Lh ≤ 0 ∨ wv_kN_m ≤ 0 ∨ H_kN ≤ 0 then 0
  else H_kN / wv_kN_m * (Real.cosh (wv_kN_m * Lh / (2 * H_kN)) - 1)

/-- perfil.py, tension_soporte_catenaria_kN: Ts = H cosh (w Lh / 2H). -/
noncomputable def tension_soporte_catenaria_kN (Lh wv_kN_m H_kN : ℝ) : ℝ :=
  if Lh ≤ 0 ∨ wv_kN_m ≤ 0 ∨ H_kN ≤ 0 then 0
  else H_kN * Real.cosh (wv_kN_m * Lh / (2 * H_kN))

/-- C10 counterexample: sag_parabolica_m does not guard the weight: at
L = 2, w = -1, H = 1 it returns -1/2, not 0. -/
theorem sag_parabolica_sin_guarda_contraejemplo :
    (-1 : ℝ) ≤ 0 ∧ sag_parabolica_m 2 (-1) 1 = -(1 / 2) ∧
    sag_parabolica_m 2 (-1) 1 ≠ 0 := by
  have h : sag_parabolica_m 2 (-1) 1 = -(1 / 2) := by
    unfold sag_parabolica_m
    rw [if_neg (by norm_num)]
    norm_num
  exact ⟨by norm_num, h, by rw [h]; norm_num⟩

/-- C10 amended: sag_catenaria_m and tension_soporte_catenaria_kN return 0
whenever L <= 0, w <= 0 or H <= 0; sag_parabolica_m returns 0 whenever
L <= 0 or H <= 0 but does not guard w, evaluating w L^2 / (8 H) - negative
for w < 0 - whenever L > 0 and H > 0; each division / cosh formula is
evaluated only under its guard. -/
theorem sag_guardas_amended (L w H : ℝ) :
    (L ≤ 0 ∨ w ≤ 0 ∨ H ≤ 0 →
      sag_catenaria_m L w H = 0 ∧ tension_soporte_catenaria_kN L w H = 0) ∧
    (L ≤ 0 ∨ H ≤ 0 → sag_parabolica_m L w H = 0) ∧
    (0 < L → 0 < H → sag_parabolica_m L w H = w * L * L / (8 * H)) ∧
    (0 < L → 0 < w → 0 < H →
      sag_catenaria_m L w H = H / w * (Real.cosh (w * L / (2 * H)) - 1) ∧
      tension_soporte_catenaria_kN L w H = H * Real.cosh (w * L / (2 * H))) := by
  refine ⟨?_, ?_, ?_, ?_⟩
  · intro h
    unfold sag_catenaria_m tension_soporte_catenaria_kN
    rw [if_pos h, if_pos h]
    exact ⟨rfl, rfl⟩
  · intro h
    unfold sag_parabolica_m
    rw [if_pos h]
  · intro hL hH
    unfold sag_parabolica_m
    rw [if_neg (by push_neg; exact ⟨hL, hH⟩)]
  · intro hL hw hH
    unfold sag_catenaria_m tension_soporte_catenaria_kN
    rw [if_neg (by push_neg; exact ⟨hL, hw, hH⟩),
      if_neg (by push_neg; exact ⟨hL, hw, hH⟩)]
    exact ⟨rfl, rfl⟩

/-- Witness for C10 amended at concrete inputs on both sides of each
guard. -/
theorem sag_guardas_testigo :
    (sag_catenaria_m 1 (-1) 1 = 0 ∧ tension_soporte_catenaria_kN 1 (-1) 1 = 0) ∧
    sag_parabolica_m (-1) 5 1 = 0 ∧
    sag_parabolica_m 2 7 1 = 7 * 2 * 2 / (8 * 1) ∧
    (sag_catenaria_m 2 7 1 = 1 / 7 * (Real.cosh (7 * 2 / (2 * 1)) - 1) ∧
      tension_soporte_catenaria_kN 2 7 1 = 1 * Real.cosh (7 * 2 / (2 * 1))) :=
  ⟨(sag_guardas_amended 1 (-1) 1).1 (Or.inr (Or.inl (by norm_num))),
    (sag_guardas_amended (-1) 5 1).2.1 (Or.inl (by norm_num)),
    (sag_guardas_amended 2 7 1).2.2.1 (by norm_num) (by norm_num),
    (sag_guardas_amended 2 7 1).2.2.2 (by norm_num) (by norm_num) (by norm_num)⟩

end Analisis
